import Mathlib

/-!
Verification of the deferral scheduler in `src/with-defer.js` (the module
`withDefer`, its registration function `defer`, the drain routine
`executeDeferredFunctions`, the per-record runner `handleDeferred`, the
option validators, and the error aggregation in `handleErrors`).

The JavaScript code is shallowly embedded: JS values are `JsValue`, errors
are `JsError`, promise settlement is explicit data, asynchronous timing is
an abstract duration per callback raced against the record's timeout, and
observable actions (callback invocations, `console.error` calls, reporter
invocations) are collected in an event trace.
-/

namespace WithDefer

/-- JS `Error` objects: ordinary errors carry a name (`"Error"`,
`"TypeError"`), a message, and an optional `cause`; `AggregateError`
carries a list of errors and a message. -/
inductive JsError : Type where
  | err (name : String) (message : String) (cause : Option JsError)
  | aggregate (errors : List JsError) (message : String)
deriving Repr

mutual

/-- Decidable equality on JS errors (the nested inductive blocks the
derive handler, so the instance is built by hand). -/
def JsError.decEq : (a b : JsError) → Decidable (a = b)
  | .err n1 m1 c1, .err n2 m2 c2 =>
    match String.decEq n1 n2 with
    | isFalse h => isFalse (by intro he; cases he; exact h rfl)
    | isTrue h1 =>
      match String.decEq m1 m2 with
      | isFalse h => isFalse (by intro he; cases he; exact h rfl)
      | isTrue h2 =>
        match JsError.decEqOpt c1 c2 with
        | isFalse h => isFalse (by intro he; cases he; exact h rfl)
        | isTrue h3 => isTrue (by rw [h1, h2, h3])
  | .err _ _ _, .aggregate _ _ => isFalse (fun h => JsError.noConfusion h)
  | .aggregate _ _, .err _ _ _ => isFalse (fun h => JsError.noConfusion h)
  | .aggregate l1 m1, .aggregate l2 m2 =>
    match JsError.decEqList l1 l2 with
    | isFalse h => isFalse (by intro he; cases he; exact h rfl)
    | isTrue h1 =>
      match String.decEq m1 m2 with
      | isFalse h => isFalse (by intro he; cases he; exact h rfl)
      | isTrue h2 => isTrue (by rw [h1, h2])

/-- Decidable equality on optional JS errors. -/
def JsError.decEqOpt : (a b : Option JsError) → Decidable (a = b)
  | none, none => isTrue rfl
  | none, some _ => isFalse (fun h => Option.noConfusion h)
  | some _, none => isFalse (fun h => Option.noConfusion h)
  | some a, some b =>
    match JsError.decEq a b with
    | isFalse h => isFalse (by intro he; cases he; exact h rfl)
    | isTrue h => isTrue (by rw [h])

/-- Decidable equality on lists of JS errors. -/
def JsError.decEqList : (a b : List JsError) → Decidable (a = b)
  | [], [] => isTrue rfl
  | [], _ :: _ => isFalse (fun h => List.noConfusion h)
  | _ :: _, [] => isFalse (fun h => List.noConfusion h)
  | a :: as, b :: bs =>
    match JsError.decEq a b with
    | isFalse h => isFalse (by intro he; cases he; exact h rfl)
    | isTrue h1 =>
      match JsError.decEqList as bs with
      | isFalse h => isFalse (by intro he; cases he; exact h rfl)
      | isTrue h2 => isTrue (by rw [h1, h2])

end

instance : DecidableEq JsError := JsError.decEq

/-- The `message` property of a JS error (AggregateError also has one). -/
def JsError.message : JsError → String
  | .err _ m _ => m
  | .aggregate _ m => m

/-- The `name` property of a JS error. -/
def JsError.name : JsError → String
  | .err n _ _ => n
  | .aggregate _ _ => "AggregateError"

/-- The `cause` property of a JS error (`undefined` = `none`). -/
def JsError.cause : JsError → Option JsError
  | .err _ _ c => c
  | .aggregate _ _ => none

/-- JS runtime values, restricted to the shapes the scheduler can observe. -/
inductive JsValue : Type where
  | vUndefined
  | vNull
  | vBool (b : Bool)
  | vNum (n : Int)
  | vStr (s : String)
  | vErr (e : JsError)
deriving Repr, DecidableEq

/-- The `instanceof Error` test. -/
def JsValue.isError : JsValue → Bool
  | .vErr _ => true
  | _ => false

/-- JS `String(value)` coercion, for the values above. -/
def jsToString : JsValue → String
  | .vUndefined => "undefined"
  | .vNull => "null"
  | .vBool b => if b then "true" else "false"
  | .vNum n => toString n
  | .vStr s => s
  | .vErr e => e.name ++ ": " ++ e.message

/-- Text used when the code formats an error-ish value:
`err instanceof Error ? err.message : String(err)`. -/
def errText : JsValue → String
  | .vErr je => je.message
  | v => jsToString v

/-- A JS number as stored in an option field: a finite value (modelled as
an integer duration), `NaN`, or an infinity. -/
inductive JsNum : Type where
  | finite (v : Int)
  | nan
  | posInf
  | negInf
deriving Repr, DecidableEq

/-- The value supplied for the `timeout` option field: absent, `null`, a
number, or a value of some other type (with its JS truthiness). -/
inductive TimeoutOpt : Type where
  | undef
  | nullV
  | num (n : JsNum)
  | nonNum (truthy : Bool)
deriving Repr, DecidableEq

/-- The value supplied for a boolean option field (`debug`,
`throwOnError`): absent, a boolean, or a non-boolean value (with its JS
truthiness; `null` is a falsy non-boolean here). -/
inductive BoolOpt : Type where
  | undef
  | boolV (b : Bool)
  | nonBool (truthy : Bool)
deriving Repr, DecidableEq

/-- An error-reporter callback, identified by `id`; `throwsWith` is the
value it throws when invoked (`none` = it returns normally). -/
structure Reporter : Type where
  id : Nat
  throwsWith : Option JsValue
deriving Repr, DecidableEq

/-- The value supplied for the `errorReporter` option field. -/
inductive ReporterOpt : Type where
  | undef
  | nullV
  | funcV (r : Reporter)
  | nonFunc (truthy : Bool)
deriving Repr, DecidableEq

/-- A JS options object with the four recognized fields (absent fields are
`undef`); `{}` is the record with every field `undef`. -/
structure DeferOptionsJs : Type where
  timeout : TimeoutOpt := .undef
  debug : BoolOpt := .undef
  throwOnError : BoolOpt := .undef
  errorReporter : ReporterOpt := .undef
deriving Repr, DecidableEq

/-- `validateBoolean(value, name)`: throws a `TypeError` unless the value
is `undefined` or a boolean. -/
def validateBoolean (value : BoolOpt) (nm : String) : Except JsError Unit :=
  match value with
  | .undef => .ok ()
  | .boolV _ => .ok ()
  | .nonBool _ => .error (.err "TypeError" (nm ++ " must be a boolean") none)

/-- The condition of the `timeout` check in `validateDeferOptions`:
`timeout !== null && timeout !== undefined &&
(typeof timeout !== "number" || !Number.isFinite(timeout))`. -/
def timeoutInvalid : TimeoutOpt → Bool
  | .undef => false
  | .nullV => false
  | .num (.finite _) => false
  | .num .nan => true
  | .num .posInf => true
  | .num .negInf => true
  | .nonNum _ => true

/-- `validateDeferOptions(options)`: checks `timeout`, then `debug`, then
`throwOnError`, then `errorReporter`, throwing on the first bad field. -/
def validateDeferOptions (options : DeferOptionsJs) : Except JsError Unit :=
  if timeoutInvalid options.timeout then
    .error (.err "TypeError" "timeout must be a finite number or null" none)
  else
    match validateBoolean options.debug "debug" with
    | .error e => .error e
    | .ok _ =>
      match validateBoolean options.throwOnError "throwOnError" with
      | .error e => .error e
      | .ok _ =>
        match options.errorReporter with
        | .undef => .ok ()
        | .nullV => .ok ()
        | .funcV _ => .ok ()
        | .nonFunc _ =>
          .error (.err "TypeError" "errorReporter must be a function or null" none)

/-- Object spread `{...globalOptions, ...localOptions}` on the `timeout`
field: the local value wins when the field is present. -/
def mergeTimeout : TimeoutOpt → TimeoutOpt → TimeoutOpt
  | g, .undef => g
  | _, l => l

/-- Spread merge on a boolean field. -/
def mergeBool : BoolOpt → BoolOpt → BoolOpt
  | g, .undef => g
  | _, l => l

/-- Spread merge on the `errorReporter` field. -/
def mergeReporter : ReporterOpt → ReporterOpt → ReporterOpt
  | g, .undef => g
  | _, l => l

/-- `{...globalOptions, ...localOptions}` field by field. -/
def mergeOptions (g l : DeferOptionsJs) : DeferOptionsJs where
  timeout := mergeTimeout g.timeout l.timeout
  debug := mergeBool g.debug l.debug
  throwOnError := mergeBool g.throwOnError l.throwOnError
  errorReporter := mergeReporter g.errorReporter l.errorReporter

/-- `mergedOptions.timeout ?? null`, as stored on a validated record:
after `validateDeferOptions` only `undefined`, `null`, or a finite number
can reach this point. -/
def TimeoutOpt.resolve : TimeoutOpt → Option Int
  | .num (.finite v) => some v
  | _ => none

/-- `mergedOptions.errorReporter ?? null` on the record. -/
def ReporterOpt.resolve : ReporterOpt → Option Reporter
  | .funcV r => some r
  | _ => none

/-- `mergedOptions.debug ?? false` on the record (post-validation the field
is `undefined` or a boolean). -/
def BoolOpt.resolveFalse : BoolOpt → Bool
  | .boolV b => b
  | .undef => false
  | .nonBool t => t

/-- What a deferred callback does when invoked: settle with a value, or
throw/reject with a value. -/
inductive CbBehavior : Type where
  | ret (v : JsValue)
  | thrw (v : JsValue)
deriving Repr, DecidableEq

/-- A user-supplied callback: its declared `name` (`""` for an anonymous
function), its behavior, and the abstract time it takes to settle. -/
structure Callback : Type where
  name : String := ""
  behavior : CbBehavior
  duration : Nat := 0
deriving Repr, DecidableEq

/-- `callback.name || "anonymous"`. -/
def jsFunctionName (cb : Callback) : String :=
  if cb.name = "" then "anonymous" else cb.name

/-- A deferred record on the queue (the object built inside `defer`).
`rid` models the handle identity the returned `cancel` closure captures. -/
structure Deferred : Type where
  rid : Nat
  callback : Callback
  timeout : Option Int
  functionName : String
  isCancelled : Bool
  errorReporter : Option Reporter
  debug : Bool
deriving Repr, DecidableEq

/-- The per-invocation context `createDefer` builds: the registration
queue (head = most recently registered, mirroring `Deque.prepend`), the
`isExecuting` flag, and a counter issuing fresh record identities. -/
structure DeferCtx : Type where
  deferQueue : List Deferred := []
  nextRid : Nat := 0
  isExecuting : Bool := false
deriving Repr, DecidableEq

/-- The first argument passed to `defer`: a function, or a value of some
other runtime type. -/
inductive CallbackArg : Type where
  | func (cb : Callback)
  | notFunc (typeName : String)
deriving Repr, DecidableEq

/-- The `localOptions` argument of `defer`: an object, `null`, or a value
of a non-object type. -/
inductive OptionsArg : Type where
  | obj (o : DeferOptionsJs)
  | nullA
  | nonObj (typeName : String)
deriving Repr, DecidableEq

/-- The local options object actually spread: `{...null}` and the default
`{}` both contribute nothing. -/
def OptionsArg.asObj : OptionsArg → DeferOptionsJs
  | .obj o => o
  | _ => {}

/-- The error thrown by `defer` once drain has begun. -/
def reentrancyError : JsError :=
  .err "Error"
    "Cannot call defer() during deferred function execution. Defer must be called before the main function completes."
    none

/-- `defer(callback, localOptions)` on a context: returns the updated
context and either the new record's identity (the handle) or the error
thrown. On every throwing path the context is returned unchanged. -/
def deferOp (globalOptions : DeferOptionsJs) (ctx : DeferCtx)
    (callback : CallbackArg) (localOptions : OptionsArg) :
    DeferCtx × Except JsError Nat :=
  if ctx.isExecuting then
    (ctx, .error reentrancyError)
  else
    match callback with
    | .notFunc _ => (ctx, .error (.err "TypeError" "callback must be a function" none))
    | .func cb =>
      match localOptions with
      | .nonObj _ => (ctx, .error (.err "TypeError" "Options must be an object or null" none))
      | other =>
        let mergedOptions := mergeOptions globalOptions other.asObj
        match validateDeferOptions mergedOptions with
        | .error e => (ctx, .error e)
        | .ok _ =>
          let deferred : Deferred :=
            { rid := ctx.nextRid
              callback := cb
              timeout := mergedOptions.timeout.resolve
              functionName := jsFunctionName cb
              isCancelled := false
              errorReporter := mergedOptions.errorReporter.resolve
              debug := mergedOptions.debug.resolveFalse }
          ({ ctx with
              deferQueue := deferred :: ctx.deferQueue
              nextRid := ctx.nextRid + 1 },
            .ok ctx.nextRid)

/-- Invoking the `cancel` closure of the handle for record `rid`: sets
that record's `isCancelled` flag (idempotently; a no-op if the record no
longer exists). -/
def cancelOp (ctx : DeferCtx) (rid : Nat) : DeferCtx :=
  { ctx with
      deferQueue := ctx.deferQueue.map fun d =>
        if d.rid = rid then { d with isCancelled := true } else d }

/-- Observable actions during drain: a callback invocation, a
`console.error` call, or an error-reporter invocation (with the context
object's literal key/value pairs). -/
inductive Event : Type where
  | callbackRun (index : Nat) (functionName : String)
  | consoleError (message : String)
  | reporterCall (id : Nat) (errArg : JsValue) (context : List (String × JsValue))
deriving Repr, DecidableEq

/-- `createErrorMessage(deferQueue, index, prefix, suffix)`: walks the
queue to `index` (falling back to `"unknown"` past the end) and formats
the diagnostic line. -/
def createErrorMessage (deferQueue : List Deferred) (index : Nat)
    (pre suf : String) : String :=
  let functionName :=
    match deferQueue.get? index with
    | some d => d.functionName
    | none => "unknown"
  let suffixPart := if suf = "" then "" else ": " ++ suf
  pre ++ " in deferred function " ++ toString index ++ " (" ++ functionName ++ ")"
    ++ suffixPart

/-- `reportError(err, index, action, deferQueue, errorReporter, debug)`:
the events it emits. A throw from the reporter is caught; with `debug` it
is logged, otherwise it is swallowed. -/
def reportError (e : JsValue) (index : Nat) (action : String)
    (deferQueue : List Deferred) (errorReporter : Option Reporter)
    (debug : Bool) : List Event :=
  let message :=
    createErrorMessage deferQueue index "error" (action ++ ": " ++ errText e)
  (if debug then [Event.consoleError message] else []) ++
    match errorReporter with
    | none => []
    | some r =>
      Event.reporterCall r.id e
          [("err", e), ("index", .vNum index), ("message", .vStr message)] ::
        match r.throwsWith with
        | none => []
        | some reporterErr =>
          if debug then
            [Event.consoleError ("Error in errorReporter callback: " ++ errText reporterErr)]
          else []

/-- The `action` chosen in `handleDeferred`'s catch block:
`err instanceof Error && err.message === "timeout exceeded"` selects
`"timed out"`, every other caught value selects `"failed to execute"`. -/
def classifyAction (e : JsValue) : String :=
  match e with
  | .vErr je => if je.message = "timeout exceeded" then "timed out" else "failed to execute"
  | _ => "failed to execute"

/-- The result of `handleDeferred` for one record: the value it resolves
the record's settlement promise with (which is also its own return
value — the function never rejects), and the events emitted. -/
structure HandleResult : Type where
  value : JsValue
  events : List Event
deriving Repr, DecidableEq

/-- `handleDeferred(deferred, index, deferQueue)`. The record's flags are
the destructured values at the moment drain reaches it. The timeout timer
is armed only when `timeout && timeout > 0`; the timer wins the
`Promise.race` exactly when the callback's duration exceeds the timeout. -/
def handleDeferred (d : Deferred) (index : Nat) (deferQueue : List Deferred) :
    HandleResult :=
  if d.isCancelled then
    { value := .vStr "deferred function was cancelled", events := [] }
  else
    let runEv := [Event.callbackRun index d.functionName]
    let timeoutWins : Bool :=
      match d.timeout with
      | some t => decide (0 < t) && decide (t < (d.callback.duration : Int))
      | none => false
    if timeoutWins then
      let e : JsValue := .vErr (.err "Error" "timeout exceeded" none)
      { value := e
        events := runEv ++
          reportError e index (classifyAction e) deferQueue d.errorReporter d.debug }
    else
      match d.callback.behavior with
      | .ret v => { value := v, events := runEv }
      | .thrw e =>
        { value := e
          events := runEv ++
            reportError e index (classifyAction e) deferQueue d.errorReporter d.debug }

/-- The wrapped error `handleErrors` builds for one Error-valued result:
`new Error(message + ": " + err.message)` with `cause` set to the
original (the non-Error branch is unreachable after the filter but kept
as in the source). -/
def wrapOne (deferQueue : List Deferred) (p : JsValue × Nat) : JsError :=
  let message := createErrorMessage deferQueue p.2 "promise rejection" ""
  match p.1 with
  | .vErr je => .err "Error" (message ++ ": " ++ je.message) (some je)
  | v => .err "Error" (message ++ ": " ++ jsToString v) none

/-- `handleErrors(resultWithIndex, deferQueue, debug)`: filters the
results that are Error instances and wraps each, logging when `debug`. -/
def handleErrors (resultWithIndex : List (JsValue × Nat))
    (deferQueue : List Deferred) (debug : Bool) : List JsError × List Event :=
  let failures := resultWithIndex.filter fun p => p.1.isError
  (failures.map (wrapOne deferQueue),
    if debug then
      failures.map fun p =>
        Event.consoleError (createErrorMessage deferQueue p.2 "promise rejection" "")
    else [])

instance {ε α : Type} [DecidableEq ε] [DecidableEq α] :
    DecidableEq (Except ε α) := fun a b =>
  match a, b with
  | .ok x, .ok y =>
    if h : x = y then isTrue (by rw [h]) else isFalse (fun he => h (Except.ok.inj he))
  | .error x, .error y =>
    if h : x = y then isTrue (by rw [h]) else isFalse (fun he => h (Except.error.inj he))
  | .ok _, .error _ => isFalse (fun he => Except.noConfusion he)
  | .error _, .ok _ => isFalse (fun he => Except.noConfusion he)

/-- The outcome of `executeDeferredFunctions`: the context with its
`isExecuting` flag flipped, the function's completion (the per-record
settlement values, or the thrown `AggregateError`), the settlement values
themselves (records settle even when the aggregate is thrown), and the
event trace. -/
structure DrainResult : Type where
  ctx : DeferCtx
  outcome : Except JsError (List JsValue)
  results : List JsValue
  events : List Event
deriving Repr, DecidableEq

/-- `executeDeferredFunctions()`: flips `isExecuting`, awaits
`handleDeferred` for each queue record in order (one at a time, so the
trace is the concatenation of the per-record traces), aggregates the
Error-valued results, and throws the `AggregateError` when the context's
`throwOnError` is set and at least one error was collected. -/
def executeDeferredFunctions (ctx : DeferCtx) (ctxDebug ctxThrowOnError : Bool) :
    DrainResult :=
  let handled := ctx.deferQueue.enum.map fun p => handleDeferred p.2 p.1 ctx.deferQueue
  let results := handled.map HandleResult.value
  let handledEvents := (handled.map HandleResult.events).flatten
  let aggregated :=
    handleErrors (results.enum.map fun p => (p.2, p.1)) ctx.deferQueue ctxDebug
  let outcome : Except JsError (List JsValue) :=
    if ctxThrowOnError && decide (0 < aggregated.1.length) then
      .error (.aggregate aggregated.1
        (toString aggregated.1.length ++ " deferred functions failed"))
    else .ok results
  { ctx := { ctx with isExecuting := true }
    outcome := outcome
    results := results
    events := handledEvents ++ aggregated.2 }

/-- How the main operation completes: a return value or a thrown error. -/
inductive MainOutcome : Type where
  | ret (v : JsValue)
  | thrw (e : JsError)
deriving Repr, DecidableEq

/-- `run(fn)`: `try { returnValue = await fn() } finally { await
executeDeferredFunctions() } return returnValue`. A throw from the
`finally` block replaces whatever completion was in flight, so the drain's
aggregate error — when it is thrown — is the one the caller sees. -/
def runOp (ctx : DeferCtx) (ctxDebug ctxThrowOnError : Bool)
    (main : MainOutcome) : Except JsError JsValue × List Event :=
  let dr := executeDeferredFunctions ctx ctxDebug ctxThrowOnError
  match dr.outcome, main with
  | .error drainErr, _ => (.error drainErr, dr.events)
  | .ok _, .thrw mainErr => (.error mainErr, dr.events)
  | .ok _, .ret v => (.ok v, dr.events)

/-- One call the main operation makes on its bound registration context:
a `defer(...)` call or a `cancel()` call on a previously returned handle. -/
inductive MainStep : Type where
  | deferS (cb : CallbackArg) (opts : OptionsArg)
  | cancelS (rid : Nat)
deriving Repr, DecidableEq

/-- Runs the main operation's registration/cancellation calls against a
context (a `defer` call that throws leaves the context unchanged, as in
`deferOp`). -/
def execSteps (globalOptions : DeferOptionsJs) :
    List MainStep → DeferCtx → DeferCtx
  | [], ctx => ctx
  | .deferS cb opts :: rest, ctx =>
    execSteps globalOptions rest (deferOp globalOptions ctx cb opts).1
  | .cancelS rid :: rest, ctx =>
    execSteps globalOptions rest (cancelOp ctx rid)

/-- `const { debug = false, throwOnError = false } = globalOptions` in
`createDefer`, with JS truthiness for the unvalidated global value. -/
def ctxDebugOf (globalOptions : DeferOptionsJs) : Bool :=
  globalOptions.debug.resolveFalse

/-- The destructured `throwOnError` of the context. -/
def ctxThrowOnErrorOf (globalOptions : DeferOptionsJs) : Bool :=
  globalOptions.throwOnError.resolveFalse

/-- A main operation, as the scheduler observes it: the registration and
cancellation calls it makes, then how it completes. -/
structure MainOp : Type where
  steps : List MainStep
  outcome : MainOutcome
deriving Repr, DecidableEq

/-- One call to the function `withDefer(fn, options)` returns: a fresh
context is created by `createDefer(options)` inside the call (never
shared), the main operation runs against it, then `run`'s drain and
error policy apply. -/
def invokeWrapped (options : DeferOptionsJs) (main : MainOp) :
    Except JsError JsValue × List Event :=
  let ctx := execSteps options main.steps {}
  runOp ctx (ctxDebugOf options) (ctxThrowOnErrorOf options) main.outcome

/-- All invocation contexts currently in flight; the index into the list
identifies the invocation. -/
abbrev World := List DeferCtx

/-- Applies a function to the context at one index, leaving every other
context as it is. -/
def modifyIdx : World → Nat → (DeferCtx → DeferCtx) → World
  | [], _, _ => []
  | c :: cs, 0, f => f c :: cs
  | c :: cs, n + 1, f => c :: modifyIdx cs n f

/-- An observable step of a system of concurrent invocations: a new call
to the wrapped function (which builds a fresh context), a `defer` call on
one invocation's registration function, or a `cancel` call on one
invocation's handle. -/
inductive WOp : Type where
  | newInv
  | deferW (inv : Nat) (cb : CallbackArg) (opts : OptionsArg)
  | cancelW (inv : Nat) (rid : Nat)
deriving Repr, DecidableEq

/-- Applies one step to the world. `newInv` is the body of the function
`withDefer` returns: `createDefer(options)` runs per call, so the new
invocation gets a brand-new empty context. -/
def applyWOp (globalOptions : DeferOptionsJs) (w : World) : WOp → World
  | .newInv => w ++ [{}]
  | .deferW inv cb opts =>
    modifyIdx w inv fun ctx => (deferOp globalOptions ctx cb opts).1
  | .cancelW inv rid => modifyIdx w inv fun ctx => cancelOp ctx rid

/-- Runs a sequence of steps over the world. -/
def runScript (globalOptions : DeferOptionsJs) : List WOp → World → World
  | [], w => w
  | op :: rest, w => runScript globalOptions rest (applyWOp globalOptions w op)

/-- Whether a step acts on invocation `j`'s registration state. -/
def opTouches : WOp → Nat → Bool
  | .newInv, _ => false
  | .deferW inv _ _, j => inv == j
  | .cancelW inv _, j => inv == j

/-- Whether an event is an error-reporter invocation. -/
def Event.isReporterCall : Event → Bool
  | .reporterCall _ _ _ => true
  | _ => false

/-- The same record with its reporter's throwing behavior replaced
(identity when no reporter is configured); every field the drain's
settlement logic reads is untouched. -/
def Deferred.withReporterThrow (d : Deferred) (t : Option JsValue) : Deferred :=
  { d with errorReporter := d.errorReporter.map fun r => { r with throwsWith := t } }

/-- The same context with every record's reporter throw behavior chosen
by `f` from the record identity. -/
def DeferCtx.withReporterThrows (ctx : DeferCtx) (f : Nat → Option JsValue) : DeferCtx :=
  { ctx with deferQueue := ctx.deferQueue.map fun d => d.withReporterThrow (f d.rid) }

/-- The failing records of a drain, exactly as `handleErrors` selects
them: the settlement values that are Error instances, paired with their
queue indices. -/
def failedResults (results : List JsValue) : List (JsValue × Nat) :=
  (results.enum.map fun p => (p.2, p.1)).filter fun p => p.1.isError

/-- Registers a list of callbacks in order, each with the default `{}`
local options (the plain `defer(cb)` call). -/
def registerMany (g : DeferOptionsJs) (cbs : List Callback) (ctx : DeferCtx) : DeferCtx :=
  execSteps g (cbs.map fun cb => .deferS (.func cb) (.obj {})) ctx

/-- The record `defer(cb)` builds when called with no local options under
global options `g`. -/
def mkDeferredOf (g : DeferOptionsJs) (rid : Nat) (cb : Callback) : Deferred :=
  { rid := rid
    callback := cb
    timeout := g.timeout.resolve
    functionName := jsFunctionName cb
    isCancelled := false
    errorReporter := g.errorReporter.resolve
    debug := g.debug.resolveFalse }

/-! Helper lemmas about the embedded operations. -/

theorem mergeOptions_empty (g : DeferOptionsJs) : mergeOptions g {} = g := rfl

theorem callbackRun_not_mem_reportError (n : Nat) (f : String) (v : JsValue) (i : Nat)
    (a : String) (q : List Deferred) (r : Option Reporter) (dbg : Bool) :
    Event.callbackRun n f ∉ reportError v i a q r dbg := by
  unfold reportError
  rcases r with _ | r
  · cases dbg <;> simp
  · rcases hr : r.throwsWith with _ | rv
    · cases dbg <;> simp [hr]
    · cases dbg <;> simp [hr]

theorem handleDeferred_events_of_cancelled (d : Deferred) (i : Nat) (q : List Deferred)
    (h : d.isCancelled = true) :
    handleDeferred d i q
      = { value := .vStr "deferred function was cancelled", events := [] } := by
  simp [handleDeferred, h]

theorem handleDeferred_events_head (d : Deferred) (i : Nat) (q : List Deferred)
    (h : d.isCancelled = false) :
    ∃ evs, (handleDeferred d i q).events = Event.callbackRun i d.functionName :: evs := by
  unfold handleDeferred
  rw [h]
  simp only [Bool.false_eq_true, if_false]
  by_cases htw : (match d.timeout with
      | some t => decide (0 < t) && decide (t < (d.callback.duration : Int))
      | none => false) = true
  · rw [if_pos htw]
    exact ⟨_, rfl⟩
  · rw [if_neg htw]
    cases hb : d.callback.behavior with
    | ret v => exact ⟨_, rfl⟩
    | thrw e => exact ⟨_, rfl⟩

theorem callbackRun_mem_handleDeferred {n : Nat} {f : String} (d : Deferred) (i : Nat)
    (q : List Deferred)
    (h : Event.callbackRun n f ∈ (handleDeferred d i q).events) :
    n = i ∧ f = d.functionName ∧ d.isCancelled = false := by
  by_cases hc : d.isCancelled = true
  · rw [handleDeferred_events_of_cancelled d i q hc] at h
    simp at h
  · have hc' : d.isCancelled = false := by
      cases hx : d.isCancelled
      · rfl
      · exact absurd hx hc
    refine ⟨?_, ?_, hc'⟩ <;>
    · unfold handleDeferred at h
      rw [hc'] at h
      simp only [Bool.false_eq_true, if_false] at h
      by_cases htw : (match d.timeout with
          | some t => decide (0 < t) && decide (t < (d.callback.duration : Int))
          | none => false) = true
      · rw [if_pos htw] at h
        simp only [List.cons_append, List.nil_append, List.mem_cons] at h
        rcases h with h | h
        · cases h
          rfl
        · exact absurd h (callbackRun_not_mem_reportError _ _ _ _ _ _ _ _)
      · rw [if_neg htw] at h
        cases hb : d.callback.behavior with
        | ret v =>
          rw [hb] at h
          simp only [List.mem_singleton] at h
          cases h
          rfl
        | thrw e =>
          rw [hb] at h
          simp only [List.cons_append, List.nil_append, List.mem_cons] at h
          rcases h with h | h
          · cases h
            rfl
          · exact absurd h (callbackRun_not_mem_reportError _ _ _ _ _ _ _ _)

theorem callbackRun_not_mem_handleErrors (n : Nat) (f : String)
    (rwi : List (JsValue × Nat)) (q : List Deferred) (dbg : Bool) :
    Event.callbackRun n f ∉ (handleErrors rwi q dbg).2 := by
  unfold handleErrors
  cases dbg
  · simp
  · simp

theorem drain_results_eq (ctx : DeferCtx) (dbg thr : Bool) :
    (executeDeferredFunctions ctx dbg thr).results
      = ctx.deferQueue.enum.map fun p => (handleDeferred p.2 p.1 ctx.deferQueue).value := by
  simp [executeDeferredFunctions, List.map_map, Function.comp]

theorem drain_results_get? (ctx : DeferCtx) (dbg thr : Bool) (i : Nat) (d : Deferred)
    (h : ctx.deferQueue.get? i = some d) :
    (executeDeferredFunctions ctx dbg thr).results.get? i
      = some (handleDeferred d i ctx.deferQueue).value := by
  rw [drain_results_eq, List.get?_map, List.get?_enum, h]
  rfl

theorem drain_events_eq (ctx : DeferCtx) (dbg thr : Bool) :
    (executeDeferredFunctions ctx dbg thr).events
      = (ctx.deferQueue.enum.map fun p => (handleDeferred p.2 p.1 ctx.deferQueue).events).flatten
        ++ (handleErrors
            (((ctx.deferQueue.enum.map fun p =>
                (handleDeferred p.2 p.1 ctx.deferQueue).value).enum).map fun p => (p.2, p.1))
            ctx.deferQueue dbg).2 := by
  simp [executeDeferredFunctions, List.map_map, Function.comp_def]

theorem runOp_of_drain_error (ctx : DeferCtx) (dbg thr : Bool) (m : MainOutcome)
    (e : JsError) (h : (executeDeferredFunctions ctx dbg thr).outcome = .error e) :
    runOp ctx dbg thr m = (.error e, (executeDeferredFunctions ctx dbg thr).events) := by
  unfold runOp
  dsimp only
  rw [h]

theorem runOp_of_drain_ok (ctx : DeferCtx) (dbg thr : Bool) (rs : List JsValue)
    (h : (executeDeferredFunctions ctx dbg thr).outcome = .ok rs) :
    (∀ e, runOp ctx dbg thr (.thrw e)
        = (.error e, (executeDeferredFunctions ctx dbg thr).events))
      ∧ ∀ v, runOp ctx dbg thr (.ret v)
        = (.ok v, (executeDeferredFunctions ctx dbg thr).events) := by
  constructor
  · intro e
    unfold runOp
    dsimp only
    rw [h]
  · intro v
    unfold runOp
    dsimp only
    rw [h]

theorem drain_outcome_eq (ctx : DeferCtx) (dbg thr : Bool) :
    (executeDeferredFunctions ctx dbg thr).outcome
      = if thr && decide (0 <
            ((failedResults (executeDeferredFunctions ctx dbg thr).results).map
              (wrapOne ctx.deferQueue)).length) then
          .error (.aggregate
            ((failedResults (executeDeferredFunctions ctx dbg thr).results).map
              (wrapOne ctx.deferQueue))
            (toString ((failedResults (executeDeferredFunctions ctx dbg thr).results).map
                (wrapOne ctx.deferQueue)).length ++ " deferred functions failed"))
        else .ok (executeDeferredFunctions ctx dbg thr).results := rfl

theorem deferOp_default_ok (g : DeferOptionsJs) (ctx : DeferCtx) (cb : Callback)
    (hex : ctx.isExecuting = false) (hg : validateDeferOptions g = .ok ()) :
    deferOp g ctx (.func cb) (.obj {})
      = ({ deferQueue := mkDeferredOf g ctx.nextRid cb :: ctx.deferQueue
           nextRid := ctx.nextRid + 1
           isExecuting := false },
          .ok ctx.nextRid) := by
  unfold deferOp
  rw [hex]
  simp only [Bool.false_eq_true, if_false, OptionsArg.asObj, mergeOptions_empty, hg,
    mkDeferredOf]

theorem registerMany_eq (g : DeferOptionsJs) (hg : validateDeferOptions g = .ok ()) :
    ∀ (cbs : List Callback) (ctx : DeferCtx), ctx.isExecuting = false →
      registerMany g cbs ctx
        = { deferQueue :=
              ((List.enumFrom ctx.nextRid cbs).map
                fun p => mkDeferredOf g p.1 p.2).reverse ++ ctx.deferQueue
            nextRid := ctx.nextRid + cbs.length
            isExecuting := false } := by
  intro cbs
  induction cbs with
  | nil =>
    intro ctx hex
    cases ctx
    simp_all [registerMany, execSteps]
  | cons cb rest ih =>
    intro ctx hex
    have hstep : registerMany g (cb :: rest) ctx
        = registerMany g rest
            { deferQueue := mkDeferredOf g ctx.nextRid cb :: ctx.deferQueue
              nextRid := ctx.nextRid + 1
              isExecuting := false } := by
      unfold registerMany
      simp only [List.map_cons, execSteps]
      rw [deferOp_default_ok g ctx cb hex hg]
    rw [hstep, ih _ rfl]
    simp [List.enumFrom_cons, List.append_assoc, Nat.add_comm, Nat.add_assoc,
      Nat.add_left_comm]

theorem flatten_map_singleton {α β : Type} (l : List α) (f : α → List β) (g : α → β)
    (h : ∀ p ∈ l, f p = [g p]) : (l.map f).flatten = l.map g := by
  induction l with
  | nil => rfl
  | cons x xs ih =>
    simp only [List.map_cons, List.flatten_cons, h x (List.mem_cons_self x xs)]
    rw [ih fun p hp => h p (List.mem_cons_of_mem x hp)]
    rfl

theorem enumFrom_map_compose {α β γ : Type} (f : α → β) (k : Nat → β → γ) :
    ∀ (l : List α) (n : Nat),
      (List.enumFrom n l).map (fun p => k p.1 (f p.2))
        = (List.enumFrom n (l.map f)).map fun p => k p.1 p.2
  | [], _ => rfl
  | x :: xs, n => by
    simp only [List.map_cons, List.enumFrom_cons]
    rw [enumFrom_map_compose f k xs (n + 1)]

theorem enumFrom_snd_map {α β : Type} (f : α → β) :
    ∀ (l : List α) (n : Nat),
      (List.enumFrom n l).map (fun p => f p.2) = l.map f := by
  intro l n
  have h1 : (List.enumFrom n l).map (fun p => f p.2)
      = ((List.enumFrom n l).map Prod.snd).map f := by
    rw [List.map_map]
    rfl
  rw [h1, List.enumFrom_map_snd]

theorem handleDeferred_simple (d : Deferred) (i : Nat) (q : List Deferred) (v : JsValue)
    (hc : d.isCancelled = false) (ht : d.timeout = none)
    (hb : d.callback.behavior = .ret v) :
    handleDeferred d i q = { value := v, events := [Event.callbackRun i d.functionName] } := by
  simp [handleDeferred, hc, ht, hb]

theorem snd_mem_of_mem_enumFrom {α : Type} {p : Nat × α} :
    ∀ {l : List α} {n : Nat}, p ∈ List.enumFrom n l → p.2 ∈ l := by
  intro l n hp
  rw [← List.enumFrom_map_snd n l]
  exact List.mem_map.mpr ⟨p, hp, rfl⟩

theorem handleErrors_events_nil (rwi : List (JsValue × Nat)) (q : List Deferred)
    (dbg : Bool) (h : ∀ p ∈ rwi, p.1.isError = false) :
    (handleErrors rwi q dbg).2 = [] := by
  unfold handleErrors
  have hf : rwi.filter (fun p => p.1.isError) = [] :=
    List.filter_eq_nil_iff.mpr fun p hp => by
      rw [h p hp]
      exact Bool.false_ne_true
  cases dbg <;> simp [hf]

theorem drain_results_mem (ctx : DeferCtx) (dbg thr : Bool) (v : JsValue)
    (hv : v ∈ (executeDeferredFunctions ctx dbg thr).results) :
    ∃ p ∈ ctx.deferQueue.enum, v = (handleDeferred p.2 p.1 ctx.deferQueue).value := by
  rw [drain_results_eq] at hv
  rcases List.mem_map.mp hv with ⟨p, hp, rfl⟩
  exact ⟨p, hp, rfl⟩

theorem modifyIdx_get?_ne :
    ∀ (w : World) (i j : Nat) (f : DeferCtx → DeferCtx), j ≠ i →
      (modifyIdx w i f).get? j = w.get? j
  | [], _, _, _, _ => rfl
  | c :: cs, 0, j, f, hj => by
    cases j with
    | zero => exact absurd rfl hj
    | succ k => rfl
  | c :: cs, n + 1, j, f, hj => by
    cases j with
    | zero => rfl
    | succ k =>
      simp only [modifyIdx, List.get?_cons_succ]
      exact modifyIdx_get?_ne cs n k f fun he => hj (by rw [he])

theorem modifyIdx_length :
    ∀ (w : World) (i : Nat) (f : DeferCtx → DeferCtx),
      (modifyIdx w i f).length = w.length
  | [], _, _ => rfl
  | _ :: _, 0, _ => rfl
  | c :: cs, n + 1, f => by
    simp only [modifyIdx, List.length_cons, modifyIdx_length cs n f]

theorem applyWOp_get?_untouched (g : DeferOptionsJs) (w : World) (op : WOp) (j : Nat)
    (hj : j < w.length) (ht : opTouches op j = false) :
    (applyWOp g w op).get? j = w.get? j := by
  cases op with
  | newInv => exact List.get?_append hj
  | deferW inv cb opts =>
    simp only [opTouches, beq_eq_false_iff_ne, ne_eq] at ht
    exact modifyIdx_get?_ne w inv j _ fun he => ht he.symm
  | cancelW inv rid =>
    simp only [opTouches, beq_eq_false_iff_ne, ne_eq] at ht
    exact modifyIdx_get?_ne w inv j _ fun he => ht he.symm

theorem applyWOp_length_ge (g : DeferOptionsJs) (w : World) (op : WOp) :
    w.length ≤ (applyWOp g w op).length := by
  cases op with
  | newInv =>
    simp [applyWOp]
  | deferW inv cb opts =>
    simp [applyWOp, modifyIdx_length]
  | cancelW inv rid =>
    simp [applyWOp, modifyIdx_length]

theorem runScript_get?_untouched (g : DeferOptionsJs) :
    ∀ (s : List WOp) (w : World) (j : Nat), j < w.length →
      (∀ op ∈ s, opTouches op j = false) →
      (runScript g s w).get? j = w.get? j
  | [], _, _, _, _ => rfl
  | op :: rest, w, j, hj, hs => by
    have h1 := applyWOp_get?_untouched g w op j hj (hs op (List.mem_cons_self op rest))
    have hlen : j < (applyWOp g w op).length :=
      Nat.lt_of_lt_of_le hj (applyWOp_length_ge g w op)
    show (runScript g rest (applyWOp g w op)).get? j = w.get? j
    rw [runScript_get?_untouched g rest (applyWOp g w op) j hlen
      fun o ho => hs o (List.mem_cons_of_mem op ho), h1]

theorem enumFrom_map_eq {α β : Type} (f : α → β) :
    ∀ (l : List α) (n : Nat),
      List.enumFrom n (l.map f) = (List.enumFrom n l).map fun p => (p.1, f p.2)
  | [], _ => rfl
  | x :: xs, n => by
    simp only [List.map_cons, List.enumFrom_cons]
    rw [enumFrom_map_eq f xs (n + 1)]

theorem handleDeferred_value_eq (d1 d2 : Deferred) (i1 i2 : Nat)
    (q1 q2 : List Deferred) (hc : d1.isCancelled = d2.isCancelled)
    (ht : d1.timeout = d2.timeout) (hb : d1.callback = d2.callback) :
    (handleDeferred d1 i1 q1).value = (handleDeferred d2 i2 q2).value := by
  unfold handleDeferred
  rw [hc, ht, hb]
  cases hcan : d2.isCancelled
  · simp only [Bool.false_eq_true, if_false]
    cases htw : (match d2.timeout with
        | some t => decide (0 < t) && decide (t < (d2.callback.duration : Int))
        | none => false)
    · simp only [Bool.false_eq_true, if_false]
      cases d2.callback.behavior <;> rfl
    · rfl
  · rfl

theorem createErrorMessage_map_preserving (q : List Deferred) (h : Deferred → Deferred)
    (hf : ∀ d, (h d).functionName = d.functionName) (i : Nat) (pre suf : String) :
    createErrorMessage (q.map h) i pre suf = createErrorMessage q i pre suf := by
  unfold createErrorMessage
  rw [List.get?_map]
  cases q.get? i
  · rfl
  · simp [hf]

theorem wrapOne_map_preserving (q : List Deferred) (h : Deferred → Deferred)
    (hf : ∀ d, (h d).functionName = d.functionName) (p : JsValue × Nat) :
    wrapOne (q.map h) p = wrapOne q p := by
  unfold wrapOne
  rw [createErrorMessage_map_preserving q h hf]

theorem reportError_reporter_filter (e : JsValue) (i : Nat) (a : String)
    (q : List Deferred) (r : Reporter) (dbg : Bool) :
    (reportError e i a q (some r) dbg).filter Event.isReporterCall
      = [Event.reporterCall r.id e
          [("err", e), ("index", .vNum i),
            ("message", .vStr (createErrorMessage q i "error" (a ++ ": " ++ errText e)))]] := by
  unfold reportError
  rcases hr : r.throwsWith with _ | rv <;> cases dbg <;>
    simp [hr, Event.isReporterCall]

theorem drain_reporter_throw_invariant (ctx : DeferCtx) (dbg thr : Bool)
    (f : Nat → Option JsValue) :
    (executeDeferredFunctions (ctx.withReporterThrows f) dbg thr).results
        = (executeDeferredFunctions ctx dbg thr).results
      ∧ (executeDeferredFunctions (ctx.withReporterThrows f) dbg thr).outcome
        = (executeDeferredFunctions ctx dbg thr).outcome := by
  have hq : (ctx.withReporterThrows f).deferQueue
      = ctx.deferQueue.map fun d => d.withReporterThrow (f d.rid) := rfl
  have hres : (executeDeferredFunctions (ctx.withReporterThrows f) dbg thr).results
      = (executeDeferredFunctions ctx dbg thr).results := by
    rw [drain_results_eq, drain_results_eq, hq]
    rw [List.enum_eq_enumFrom, List.enum_eq_enumFrom, enumFrom_map_eq, List.map_map]
    apply List.map_congr_left
    intro p hp
    exact handleDeferred_value_eq _ p.2 p.1 p.1 _ ctx.deferQueue rfl rfl rfl
  refine ⟨hres, ?_⟩
  rw [drain_outcome_eq (ctx.withReporterThrows f) dbg thr, drain_outcome_eq ctx dbg thr,
    hres]
  have hwrap : (failedResults (executeDeferredFunctions ctx dbg thr).results).map
      (wrapOne (ctx.withReporterThrows f).deferQueue)
      = (failedResults (executeDeferredFunctions ctx dbg thr).results).map
        (wrapOne ctx.deferQueue) := by
    apply List.map_congr_left
    intro p hp
    rw [hq]
    exact wrapOne_map_preserving ctx.deferQueue
      (fun d => d.withReporterThrow (f d.rid)) (fun d => rfl) p
  rw [hwrap]

/-! Theorems for the claims. -/

/-- C4: once the drain phase has begun (`isExecuting` is set, which
`executeDeferredFunctions` does first thing), every `defer` call returns
the descriptive reentrancy error and leaves the queue untouched — no late
registration is queued or executed. -/
theorem C4_registration_fails_during_drain :
    (∀ (g : DeferOptionsJs) (ctx : DeferCtx) (cb : CallbackArg) (opts : OptionsArg),
      ctx.isExecuting = true →
      deferOp g ctx cb opts = (ctx, .error reentrancyError)) ∧
    (∀ (ctx : DeferCtx) (dbg thr : Bool),
      (executeDeferredFunctions ctx dbg thr).ctx.isExecuting = true) := by
  constructor
  · intro g ctx cb opts h
    simp [deferOp, h]
  · intro ctx dbg thr
    simp [executeDeferredFunctions]

/-- C4 witness: a concrete context already draining rejects a concrete
registration, and a concrete drain marks its context as executing. -/
theorem C4_registration_fails_during_drain_witness :
    deferOp {} { isExecuting := true } (.func { behavior := .ret .vNull }) (.obj {})
        = ({ isExecuting := true }, .error reentrancyError) ∧
      (executeDeferredFunctions {} false false).ctx.isExecuting = true :=
  ⟨C4_registration_fails_during_drain.1 {} { isExecuting := true }
      (.func { behavior := .ret .vNull }) (.obj {}) rfl,
    C4_registration_fails_during_drain.2 {} false false⟩

/-- C5: a merged `timeout` that is neither null/undefined nor a finite
number makes the `defer` call itself throw the `TypeError`; a record whose
resolved timeout is unset, zero, or negative runs identically for every
callback duration (no timeout race); a record whose callback outlasts its
positive finite timeout settles with the `"timeout exceeded"` error,
reported with the `"timed out"` action. -/
theorem C5_timeout_validation_and_race :
    (∀ (g : DeferOptionsJs) (ctx : DeferCtx) (cb : Callback) (l : DeferOptionsJs),
      ctx.isExecuting = false →
      timeoutInvalid (mergeOptions g l).timeout = true →
      deferOp g ctx (.func cb) (.obj l)
        = (ctx, .error (.err "TypeError" "timeout must be a finite number or null" none))) ∧
    (∀ (d : Deferred) (i : Nat) (q : List Deferred),
      (d.timeout = none ∨ ∃ t, d.timeout = some t ∧ t ≤ 0) →
      ∀ dur : Nat,
        handleDeferred { d with callback := { d.callback with duration := dur } } i q
          = handleDeferred { d with callback := { d.callback with duration := 0 } } i q) ∧
    (∀ (d : Deferred) (i : Nat) (q : List Deferred) (t : Int),
      d.isCancelled = false → d.timeout = some t → 0 < t →
      (t : Int) < (d.callback.duration : Int) →
      handleDeferred d i q
        = { value := .vErr (.err "Error" "timeout exceeded" none)
            events := [Event.callbackRun i d.functionName] ++
              reportError (.vErr (.err "Error" "timeout exceeded" none)) i "timed out" q
                d.errorReporter d.debug }) := by
  refine ⟨?_, ?_, ?_⟩
  · intro g ctx cb l hex hbad
    simp [deferOp, hex, OptionsArg.asObj, validateDeferOptions, hbad]
  · intro d i q hto dur
    rcases hto with hnone | ⟨t, hsome, hle⟩
    · simp [handleDeferred, hnone]
    · have hdec : decide (0 < t) = false := by
        simp only [decide_eq_false_iff_not, not_lt]
        exact hle
      simp [handleDeferred, hsome, hdec]
  · intro d i q t hc hsome hpos hlt
    have h1 : decide (0 < t) = true := decide_eq_true hpos
    have h2 : decide (t < (d.callback.duration : Int)) = true := decide_eq_true hlt
    simp [handleDeferred, hc, hsome, h1, h2, classifyAction, JsError.message]

/-- C5 witness: a registration whose local timeout is `NaN` throws the
`TypeError`; a record with timeout `-5` ignores a duration of `1000`; a
record with timeout `50` and duration `500` settles with the timeout
error. -/
theorem C5_timeout_validation_and_race_witness :
    (deferOp {} {} (.func { behavior := .ret .vNull })
        (.obj { timeout := .num .nan })
      = ({}, .error (.err "TypeError" "timeout must be a finite number or null" none))) ∧
    (handleDeferred
        { rid := 0
          callback := { name := "slow", behavior := .ret (.vStr "late"), duration := 1000 }
          timeout := some (-5), functionName := "slow", isCancelled := false
          errorReporter := none, debug := false } 0 []
      = handleDeferred
        { rid := 0
          callback := { name := "slow", behavior := .ret (.vStr "late"), duration := 0 }
          timeout := some (-5), functionName := "slow", isCancelled := false
          errorReporter := none, debug := false } 0 []) ∧
    (handleDeferred
        { rid := 0
          callback := { name := "slow", behavior := .ret (.vStr "late"), duration := 500 }
          timeout := some 50, functionName := "slow", isCancelled := false
          errorReporter := none, debug := false } 0 []
      = { value := .vErr (.err "Error" "timeout exceeded" none)
          events := [Event.callbackRun 0 "slow"] ++
            reportError (.vErr (.err "Error" "timeout exceeded" none)) 0 "timed out" []
              none false }) :=
  ⟨C5_timeout_validation_and_race.1 {} {} { behavior := .ret .vNull }
      { timeout := .num .nan } rfl rfl,
    C5_timeout_validation_and_race.2.1
      { rid := 0
        callback := { name := "slow", behavior := .ret (.vStr "late"), duration := 1000 }
        timeout := some (-5), functionName := "slow", isCancelled := false
        errorReporter := none, debug := false } 0 []
      (Or.inr ⟨-5, rfl, by decide⟩) 1000,
    C5_timeout_validation_and_race.2.2
      { rid := 0
        callback := { name := "slow", behavior := .ret (.vStr "late"), duration := 500 }
        timeout := some 50, functionName := "slow", isCancelled := false
        errorReporter := none, debug := false } 0 [] 50 rfl rfl (by decide) (by decide)⟩

/-- C6: a record whose flag is cancelled when drain reaches it settles
with the cancellation marker and its callback is never invoked (drain
emits no `callbackRun` for its index); a record not cancelled at that
point has its callback invoked — `handleDeferred` reads the flag once on
entry, so a cancellation set after the callback has started cannot affect
whether it ran. -/
theorem C6_cancellation_semantics :
    (∀ (d : Deferred) (i : Nat) (q : List Deferred),
      d.isCancelled = true →
      handleDeferred d i q
        = { value := .vStr "deferred function was cancelled", events := [] }) ∧
    (∀ (d : Deferred) (i : Nat) (q : List Deferred),
      d.isCancelled = false →
      ∃ evs, (handleDeferred d i q).events = Event.callbackRun i d.functionName :: evs) ∧
    (∀ (ctx : DeferCtx) (dbg thr : Bool) (i : Nat) (d : Deferred),
      ctx.deferQueue.get? i = some d → d.isCancelled = true →
      (executeDeferredFunctions ctx dbg thr).results.get? i
          = some (.vStr "deferred function was cancelled")
        ∧ ∀ f, Event.callbackRun i f ∉ (executeDeferredFunctions ctx dbg thr).events) := by
  refine ⟨handleDeferred_events_of_cancelled, handleDeferred_events_head, ?_⟩
  intro ctx dbg thr i d hget hcan
  constructor
  · rw [drain_results_get? ctx dbg thr i d hget,
      handleDeferred_events_of_cancelled d i ctx.deferQueue hcan]
  · intro f hmem
    rw [drain_events_eq] at hmem
    rcases List.mem_append.mp hmem with hmem | hmem
    · rcases List.mem_flatten.mp hmem with ⟨l, hl, hel⟩
      rcases List.mem_map.mp hl with ⟨p, hp, rfl⟩
      obtain ⟨hn, _, hlive⟩ := callbackRun_mem_handleDeferred p.2 p.1 ctx.deferQueue hel
      have hgp : ctx.deferQueue.get? p.1 = some p.2 := List.mem_enum_iff_get?.mp hp
      rw [← hn, hget] at hgp
      cases Option.some.inj hgp
      rw [hcan] at hlive
      exact Bool.noConfusion hlive
    · exact callbackRun_not_mem_handleErrors i f _ ctx.deferQueue dbg hmem

/-- C6 witness: a one-record queue whose record is cancelled settles with
the marker and produces no callback invocation; the same record without
the flag runs its callback. -/
theorem C6_cancellation_semantics_witness :
    handleDeferred
        { rid := 0, callback := { name := "c", behavior := .ret (.vStr "x"), duration := 0 }
          timeout := none, functionName := "c", isCancelled := true
          errorReporter := none, debug := false } 0 []
        = { value := .vStr "deferred function was cancelled", events := [] } ∧
      (∃ evs,
        (handleDeferred
            { rid := 0, callback := { name := "c", behavior := .ret (.vStr "x"), duration := 0 }
              timeout := none, functionName := "c", isCancelled := false
              errorReporter := none, debug := false } 0 []).events
          = Event.callbackRun 0 "c" :: evs) ∧
      ((executeDeferredFunctions
          { deferQueue :=
              [{ rid := 0, callback := { name := "c", behavior := .ret (.vStr "x"), duration := 0 }
                 timeout := none, functionName := "c", isCancelled := true
                 errorReporter := none, debug := false }]
            nextRid := 1, isExecuting := false } false false).results.get? 0
          = some (.vStr "deferred function was cancelled")
        ∧ ∀ f, Event.callbackRun 0 f
            ∉ (executeDeferredFunctions
                { deferQueue :=
                    [{ rid := 0
                       callback := { name := "c", behavior := .ret (.vStr "x"), duration := 0 }
                       timeout := none, functionName := "c", isCancelled := true
                       errorReporter := none, debug := false }]
                  nextRid := 1, isExecuting := false } false false).events) :=
  ⟨C6_cancellation_semantics.1
      { rid := 0, callback := { name := "c", behavior := .ret (.vStr "x"), duration := 0 }
        timeout := none, functionName := "c", isCancelled := true
        errorReporter := none, debug := false } 0 [] rfl,
    C6_cancellation_semantics.2.1
      { rid := 0, callback := { name := "c", behavior := .ret (.vStr "x"), duration := 0 }
        timeout := none, functionName := "c", isCancelled := false
        errorReporter := none, debug := false } 0 [] rfl,
    C6_cancellation_semantics.2.2
      { deferQueue :=
          [{ rid := 0, callback := { name := "c", behavior := .ret (.vStr "x"), duration := 0 }
             timeout := none, functionName := "c", isCancelled := true
             errorReporter := none, debug := false }]
        nextRid := 1, isExecuting := false } false false 0
      { rid := 0, callback := { name := "c", behavior := .ret (.vStr "x"), duration := 0 }
        timeout := none, functionName := "c", isCancelled := true
        errorReporter := none, debug := false } rfl rfl⟩

/-- C10: the `"timed out"` action is chosen exactly when the caught value
is an Error whose message is literally `"timeout exceeded"` (every other
failure gets `"failed to execute"`), and a record with no timeout
configured whose callback throws such an error is still reported with the
`"timed out"` action. -/
theorem C10_timeout_classification_by_message :
    (∀ e : JsValue,
      (classifyAction e = "timed out"
          ↔ ∃ je, e = .vErr je ∧ je.message = "timeout exceeded") ∧
        (classifyAction e = "timed out" ∨ classifyAction e = "failed to execute")) ∧
    (∀ (d : Deferred) (i : Nat) (q : List Deferred) (e : JsValue),
      d.isCancelled = false → d.timeout = none → d.callback.behavior = .thrw e →
      handleDeferred d i q
        = { value := e
            events := [Event.callbackRun i d.functionName] ++
              reportError e i (classifyAction e) q d.errorReporter d.debug }) := by
  constructor
  · intro e
    constructor
    · cases e with
      | vErr je =>
        by_cases h : je.message = "timeout exceeded"
        · simp [classifyAction, h]
        · simp [classifyAction, h]
      | vUndefined => simp [classifyAction]
      | vNull => simp [classifyAction]
      | vBool b => simp [classifyAction]
      | vNum n => simp [classifyAction]
      | vStr s => simp [classifyAction]
    · cases e with
      | vErr je =>
        by_cases h : je.message = "timeout exceeded"
        · exact Or.inl (by simp [classifyAction, h])
        · exact Or.inr (by simp [classifyAction, h])
      | vUndefined => exact Or.inr rfl
      | vNull => exact Or.inr rfl
      | vBool b => exact Or.inr rfl
      | vNum n => exact Or.inr rfl
      | vStr s => exact Or.inr rfl
  · intro d i q e hc hto hb
    simp [handleDeferred, hc, hto, hb]

/-- C10 witness: a record with no timeout whose callback throws an Error
with message `"timeout exceeded"` is classified `"timed out"`, and a
plain failure is classified `"failed to execute"`. -/
theorem C10_timeout_classification_by_message_witness :
    (classifyAction (.vErr (.err "RangeError" "timeout exceeded" none)) = "timed out"
        ↔ ∃ je, JsValue.vErr (.err "RangeError" "timeout exceeded" none) = .vErr je
            ∧ je.message = "timeout exceeded") ∧
      (classifyAction (.vStr "timeout exceeded") = "timed out"
        ∨ classifyAction (.vStr "timeout exceeded") = "failed to execute") ∧
      handleDeferred
          { rid := 0
            callback :=
              { name := "fake"
                behavior := .thrw (.vErr (.err "RangeError" "timeout exceeded" none))
                duration := 0 }
            timeout := none, functionName := "fake", isCancelled := false
            errorReporter := none, debug := false } 0 []
        = { value := .vErr (.err "RangeError" "timeout exceeded" none)
            events := [Event.callbackRun 0 "fake"] ++
              reportError (.vErr (.err "RangeError" "timeout exceeded" none)) 0
                (classifyAction (.vErr (.err "RangeError" "timeout exceeded" none))) []
                none false } :=
  ⟨(C10_timeout_classification_by_message.1
      (.vErr (.err "RangeError" "timeout exceeded" none))).1,
    (C10_timeout_classification_by_message.1 (.vStr "timeout exceeded")).2,
    C10_timeout_classification_by_message.2
      { rid := 0
        callback :=
          { name := "fake"
            behavior := .thrw (.vErr (.err "RangeError" "timeout exceeded" none))
            duration := 0 }
        timeout := none, functionName := "fake", isCancelled := false
        errorReporter := none, debug := false } 0 []
      (.vErr (.err "RangeError" "timeout exceeded" none)) rfl rfl rfl⟩

/-- C7: with call-scope `throwOnError` and `k ≥ 1` failing records (the
results `handleErrors` classifies as Error-valued), the drain throws one
`AggregateError` whose message is the literal count followed by
`" deferred functions failed"`, carrying the ordered wrapped errors, each
keeping the original error as its `cause`; when the main operation
returned normally, `run` surfaces exactly this error. -/
theorem C7_aggregate_error_on_throwOnError :
    ∀ (ctx : DeferCtx) (dbg : Bool) (k : Nat),
      (failedResults (executeDeferredFunctions ctx dbg true).results).length = k →
      1 ≤ k →
      ∃ errs,
        (executeDeferredFunctions ctx dbg true).outcome
            = .error (.aggregate errs (toString k ++ " deferred functions failed"))
          ∧ errs = (failedResults (executeDeferredFunctions ctx dbg true).results).map
              (wrapOne ctx.deferQueue)
          ∧ errs.length = k
          ∧ (∀ v : JsValue, runOp ctx dbg true (.ret v)
              = (.error (.aggregate errs (toString k ++ " deferred functions failed")),
                  (executeDeferredFunctions ctx dbg true).events))
          ∧ ∀ p ∈ failedResults (executeDeferredFunctions ctx dbg true).results,
              ∃ je, p.1 = .vErr je
                ∧ wrapOne ctx.deferQueue p
                    = .err "Error"
                        (createErrorMessage ctx.deferQueue p.2 "promise rejection" ""
                          ++ ": " ++ je.message)
                        (some je) := by
  intro ctx dbg k hk hpos
  refine ⟨(failedResults (executeDeferredFunctions ctx dbg true).results).map
      (wrapOne ctx.deferQueue), ?_, rfl, ?_, ?_, ?_⟩
  · rw [drain_outcome_eq ctx dbg true]
    have hlen : ((failedResults (executeDeferredFunctions ctx dbg true).results).map
        (wrapOne ctx.deferQueue)).length = k := by
      rw [List.length_map, hk]
    have hcond : (true && decide (0 <
        ((failedResults (executeDeferredFunctions ctx dbg true).results).map
          (wrapOne ctx.deferQueue)).length)) = true := by
      rw [hlen]
      simp only [Bool.true_and, decide_eq_true_eq]
      omega
    rw [hcond, if_pos rfl, hlen]
  · rw [List.length_map, hk]
  · intro v
    apply runOp_of_drain_error
    rw [drain_outcome_eq ctx dbg true]
    have hlen : ((failedResults (executeDeferredFunctions ctx dbg true).results).map
        (wrapOne ctx.deferQueue)).length = k := by
      rw [List.length_map, hk]
    have hcond : (true && decide (0 <
        ((failedResults (executeDeferredFunctions ctx dbg true).results).map
          (wrapOne ctx.deferQueue)).length)) = true := by
      rw [hlen]
      simp only [Bool.true_and, decide_eq_true_eq]
      omega
    rw [hcond, if_pos rfl, hlen]
  · intro p hp
    have hErr : p.1.isError = true := (List.mem_filter.mp hp).2
    rcases hje : p.1 with _ | _ | _ | _ | _ | je
    · rw [hje] at hErr; exact Bool.noConfusion hErr
    · rw [hje] at hErr; exact Bool.noConfusion hErr
    · rw [hje] at hErr; exact Bool.noConfusion hErr
    · rw [hje] at hErr; exact Bool.noConfusion hErr
    · rw [hje] at hErr; exact Bool.noConfusion hErr
    · exact ⟨je, rfl, by simp [wrapOne, hje]⟩

/-- C7 witness: a single-record queue whose callback throws settles as one
failure, and the drain throws the `"1 deferred functions failed"`
aggregate. -/
theorem C7_aggregate_error_on_throwOnError_witness :
    (failedResults (executeDeferredFunctions
        { deferQueue :=
            [{ rid := 0
               callback := { name := "boom", behavior := .thrw (.vErr (.err "Error" "kaput" none))
                             duration := 0 }
               timeout := none, functionName := "boom", isCancelled := false
               errorReporter := none, debug := false }]
          nextRid := 1, isExecuting := false } false true).results).length = 1
      ∧ ∃ errs,
        (executeDeferredFunctions
            { deferQueue :=
                [{ rid := 0
                   callback := { name := "boom"
                                 behavior := .thrw (.vErr (.err "Error" "kaput" none))
                                 duration := 0 }
                   timeout := none, functionName := "boom", isCancelled := false
                   errorReporter := none, debug := false }]
              nextRid := 1, isExecuting := false } false true).outcome
            = .error (.aggregate errs (toString 1 ++ " deferred functions failed"))
          ∧ errs = (failedResults (executeDeferredFunctions
              { deferQueue :=
                  [{ rid := 0
                     callback := { name := "boom"
                                   behavior := .thrw (.vErr (.err "Error" "kaput" none))
                                   duration := 0 }
                     timeout := none, functionName := "boom", isCancelled := false
                     errorReporter := none, debug := false }]
                nextRid := 1, isExecuting := false } false true).results).map
              (wrapOne
                [{ rid := 0
                   callback := { name := "boom"
                                 behavior := .thrw (.vErr (.err "Error" "kaput" none))
                                 duration := 0 }
                   timeout := none, functionName := "boom", isCancelled := false
                   errorReporter := none, debug := false }])
          ∧ errs.length = 1
          ∧ (∀ v : JsValue, runOp
                { deferQueue :=
                    [{ rid := 0
                       callback := { name := "boom"
                                     behavior := .thrw (.vErr (.err "Error" "kaput" none))
                                     duration := 0 }
                       timeout := none, functionName := "boom", isCancelled := false
                       errorReporter := none, debug := false }]
                  nextRid := 1, isExecuting := false } false true (.ret v)
              = (.error (.aggregate errs (toString 1 ++ " deferred functions failed")),
                  (executeDeferredFunctions
                    { deferQueue :=
                        [{ rid := 0
                           callback := { name := "boom"
                                         behavior := .thrw (.vErr (.err "Error" "kaput" none))
                                         duration := 0 }
                           timeout := none, functionName := "boom", isCancelled := false
                           errorReporter := none, debug := false }]
                      nextRid := 1, isExecuting := false } false true).events))
          ∧ ∀ p ∈ failedResults (executeDeferredFunctions
              { deferQueue :=
                  [{ rid := 0
                     callback := { name := "boom"
                                   behavior := .thrw (.vErr (.err "Error" "kaput" none))
                                   duration := 0 }
                     timeout := none, functionName := "boom", isCancelled := false
                     errorReporter := none, debug := false }]
                nextRid := 1, isExecuting := false } false true).results,
              ∃ je, p.1 = .vErr je
                ∧ wrapOne
                    [{ rid := 0
                       callback := { name := "boom"
                                     behavior := .thrw (.vErr (.err "Error" "kaput" none))
                                     duration := 0 }
                       timeout := none, functionName := "boom", isCancelled := false
                       errorReporter := none, debug := false }] p
                    = .err "Error"
                        (createErrorMessage
                          [{ rid := 0
                             callback := { name := "boom"
                                           behavior := .thrw (.vErr (.err "Error" "kaput" none))
                                           duration := 0 }
                             timeout := none, functionName := "boom", isCancelled := false
                             errorReporter := none, debug := false }] p.2 "promise rejection" ""
                          ++ ": " ++ je.message)
                        (some je) :=
  ⟨rfl,
    C7_aggregate_error_on_throwOnError
      { deferQueue :=
          [{ rid := 0
             callback := { name := "boom", behavior := .thrw (.vErr (.err "Error" "kaput" none))
                           duration := 0 }
             timeout := none, functionName := "boom", isCancelled := false
             errorReporter := none, debug := false }]
        nextRid := 1, isExecuting := false } false 1 rfl (by decide)⟩

/-- C3: invocations are isolated — a call to the wrapped function appends
a brand-new empty context (no records from any other invocation, nested
ones included), cancelling a handle of one invocation leaves every other
invocation's context untouched, registering in one invocation leaves
every other untouched, and an arbitrary interleaving of operations that
all target other invocations leaves invocation `j`'s entire registration
state (hence its drain) unchanged. -/
theorem C3_invocation_isolation :
    (∀ (g : DeferOptionsJs) (w : World),
      (applyWOp g w .newInv).get? w.length
        = some { deferQueue := [], nextRid := 0, isExecuting := false }) ∧
    (∀ (g : DeferOptionsJs) (w : World) (inv rid j : Nat), j ≠ inv →
      (applyWOp g w (.cancelW inv rid)).get? j = w.get? j) ∧
    (∀ (g : DeferOptionsJs) (w : World) (inv : Nat) (cb : CallbackArg)
        (opts : OptionsArg) (j : Nat), j ≠ inv →
      (applyWOp g w (.deferW inv cb opts)).get? j = w.get? j) ∧
    (∀ (g : DeferOptionsJs) (s : List WOp) (w : World) (j : Nat), j < w.length →
      (∀ op ∈ s, opTouches op j = false) →
      (runScript g s w).get? j = w.get? j) := by
  refine ⟨?_, ?_, ?_, runScript_get?_untouched⟩
  · intro g w
    exact List.get?_concat_length w _
  · intro g w inv rid j hj
    exact modifyIdx_get?_ne w inv j _ hj
  · intro g w inv cb opts j hj
    exact modifyIdx_get?_ne w inv j _ hj

/-- C3 witness: with two invocations in flight, cancelling invocation 0's
record, registering another callback there, and starting a third
invocation leaves invocation 1's context exactly as it was. -/
theorem C3_invocation_isolation_witness :
    (applyWOp {} [{ deferQueue := [], nextRid := 0, isExecuting := false }] .newInv).get? 1
        = some { deferQueue := [], nextRid := 0, isExecuting := false }
      ∧ (applyWOp {}
          [{ deferQueue :=
               [{ rid := 0
                  callback := { name := "a", behavior := .ret (.vStr "A"), duration := 0 }
                  timeout := none, functionName := "a", isCancelled := false
                  errorReporter := none, debug := false }]
             nextRid := 1, isExecuting := false },
            { deferQueue := [], nextRid := 0, isExecuting := false }]
          (.cancelW 0 0)).get? 1
        = some { deferQueue := [], nextRid := 0, isExecuting := false }
      ∧ (runScript {}
          [.cancelW 0 0,
            .deferW 0 (.func { name := "x", behavior := .ret .vNull, duration := 0 }) (.obj {}),
            .newInv]
          [{ deferQueue :=
               [{ rid := 0
                  callback := { name := "a", behavior := .ret (.vStr "A"), duration := 0 }
                  timeout := none, functionName := "a", isCancelled := false
                  errorReporter := none, debug := false }]
             nextRid := 1, isExecuting := false },
            { deferQueue := [], nextRid := 0, isExecuting := false }]).get? 1
        = some { deferQueue := [], nextRid := 0, isExecuting := false } := by
  refine ⟨C3_invocation_isolation.1 {} [{ deferQueue := [], nextRid := 0, isExecuting := false }],
    ?_, ?_⟩
  · rw [C3_invocation_isolation.2.1 {}
      [{ deferQueue :=
           [{ rid := 0
              callback := { name := "a", behavior := .ret (.vStr "A"), duration := 0 }
              timeout := none, functionName := "a", isCancelled := false
              errorReporter := none, debug := false }]
         nextRid := 1, isExecuting := false },
        { deferQueue := [], nextRid := 0, isExecuting := false }] 0 0 1 (by decide)]
    rfl
  · rw [C3_invocation_isolation.2.2.2 {}
      [.cancelW 0 0,
        .deferW 0 (.func { name := "x", behavior := .ret .vNull, duration := 0 }) (.obj {}),
        .newInv]
      [{ deferQueue :=
           [{ rid := 0
              callback := { name := "a", behavior := .ret (.vStr "A"), duration := 0 }
              timeout := none, functionName := "a", isCancelled := false
              errorReporter := none, debug := false }]
         nextRid := 1, isExecuting := false },
        { deferQueue := [], nextRid := 0, isExecuting := false }] 1 (by decide)
      (by
        intro op hop
        fin_cases hop <;> rfl)]
    rfl

/-- C1 (amended): when the main operation raises, its error is the one
propagated after draining completes whenever the drain itself does not
throw; but when call-scope `throwOnError` is true and at least one record
failed, the drain's `AggregateError` is thrown from the `finally` block
and — by JS `try/finally` semantics — replaces the main operation's
in-flight error, so the aggregate is the error the caller sees. -/
theorem C1_main_error_propagation :
    ∀ (ctx : DeferCtx) (dbg thr : Bool) (e : JsError),
      (∀ rs : List JsValue, (executeDeferredFunctions ctx dbg thr).outcome = .ok rs →
        runOp ctx dbg thr (.thrw e)
          = (.error e, (executeDeferredFunctions ctx dbg thr).events))
      ∧ ∀ e2 : JsError, (executeDeferredFunctions ctx dbg thr).outcome = .error e2 →
        runOp ctx dbg thr (.thrw e)
          = (.error e2, (executeDeferredFunctions ctx dbg thr).events) := by
  intro ctx dbg thr e
  exact ⟨fun rs h => (runOp_of_drain_ok ctx dbg thr rs h).1 e,
    fun e2 h => runOp_of_drain_error ctx dbg thr (.thrw e) e2 h⟩

/-- C1 counterexample: a wrapped call whose main operation throws
`"main failed"` while `throwOnError` is set and one deferred record fails
surfaces the `"1 deferred functions failed"` aggregate — not the main
operation's error, contrary to the claimed precedence. -/
theorem C1_main_error_propagation_counterexample :
    (invokeWrapped { throwOnError := .boolV true }
        { steps := [.deferS
            (.func { name := "boom"
                     behavior := .thrw (.vErr (.err "Error" "kaput" none))
                     duration := 0 }) (.obj {})]
          outcome := .thrw (.err "Error" "main failed" none) }).1
        = .error (.aggregate
            [.err "Error" "promise rejection in deferred function 0 (boom): kaput"
              (some (.err "Error" "kaput" none))]
            "1 deferred functions failed")
      ∧ (invokeWrapped { throwOnError := .boolV true }
          { steps := [.deferS
              (.func { name := "boom"
                       behavior := .thrw (.vErr (.err "Error" "kaput" none))
                       duration := 0 }) (.obj {})]
            outcome := .thrw (.err "Error" "main failed" none) }).1
        ≠ .error (.err "Error" "main failed" none) := by
  refine ⟨rfl, ?_⟩
  intro h
  rw [show (invokeWrapped { throwOnError := .boolV true }
      { steps := [.deferS
          (.func { name := "boom"
                   behavior := .thrw (.vErr (.err "Error" "kaput" none))
                   duration := 0 }) (.obj {})]
        outcome := .thrw (.err "Error" "main failed" none) }).1
      = .error (.aggregate
          [.err "Error" "promise rejection in deferred function 0 (boom): kaput"
            (some (.err "Error" "kaput" none))]
          "1 deferred functions failed") from rfl] at h
  exact JsError.noConfusion (Except.error.inj h)

/-- C1 witness: with an empty queue the main error `"main failed"`
propagates; with a failing record under `throwOnError` the aggregate
replaces it. -/
theorem C1_main_error_propagation_witness :
    runOp {} false false (.thrw (.err "Error" "main failed" none))
        = (.error (.err "Error" "main failed" none),
            (executeDeferredFunctions {} false false).events)
      ∧ runOp
          { deferQueue :=
              [{ rid := 0
                 callback := { name := "boom"
                               behavior := .thrw (.vErr (.err "Error" "kaput" none))
                               duration := 0 }
                 timeout := none, functionName := "boom", isCancelled := false
                 errorReporter := none, debug := false }]
            nextRid := 1, isExecuting := false } false true
          (.thrw (.err "Error" "main failed" none))
        = (.error (.aggregate
            [.err "Error" "promise rejection in deferred function 0 (boom): kaput"
              (some (.err "Error" "kaput" none))]
            "1 deferred functions failed"),
            (executeDeferredFunctions
              { deferQueue :=
                  [{ rid := 0
                     callback := { name := "boom"
                                   behavior := .thrw (.vErr (.err "Error" "kaput" none))
                                   duration := 0 }
                     timeout := none, functionName := "boom", isCancelled := false
                     errorReporter := none, debug := false }]
                nextRid := 1, isExecuting := false } false true).events) :=
  ⟨(C1_main_error_propagation {} false false (.err "Error" "main failed" none)).1 [] rfl,
    (C1_main_error_propagation
      { deferQueue :=
          [{ rid := 0
             callback := { name := "boom"
                           behavior := .thrw (.vErr (.err "Error" "kaput" none))
                           duration := 0 }
             timeout := none, functionName := "boom", isCancelled := false
             errorReporter := none, debug := false }]
        nextRid := 1, isExecuting := false } false true
      (.err "Error" "main failed" none)).2
      (.aggregate
        [.err "Error" "promise rejection in deferred function 0 (boom): kaput"
          (some (.err "Error" "kaput" none))]
        "1 deferred functions failed") rfl⟩

/-- C2: registering `N` callbacks in order (no cancellation, every
callback succeeding with a non-Error value) makes drain invoke them one
block at a time in exactly the reverse of registration order — the event
trace is the most recently registered callback first and the
first-registered callback last — and the drain completes without
throwing. -/
theorem C2_drain_reverse_registration_order :
    ∀ (g : DeferOptionsJs) (cbs : List Callback) (dbg thr : Bool),
      validateDeferOptions g = .ok () →
      g.timeout.resolve = none →
      (∀ cb ∈ cbs, ∃ v, cb.behavior = .ret v ∧ v.isError = false) →
      (executeDeferredFunctions (registerMany g cbs {}) dbg thr).events
          = ((cbs.map jsFunctionName).reverse.enum).map
              (fun p => Event.callbackRun p.1 p.2)
        ∧ (executeDeferredFunctions (registerMany g cbs {}) dbg thr).events
          = (((cbs.map jsFunctionName).reverse.enum).map
              fun p => [Event.callbackRun p.1 p.2]).flatten
        ∧ (executeDeferredFunctions (registerMany g cbs {}) dbg thr).outcome
          = .ok (executeDeferredFunctions (registerMany g cbs {}) dbg thr).results := by
  intro g cbs dbg thr hg hto hcb
  have hq : (registerMany g cbs {}).deferQueue
      = ((List.enumFrom 0 cbs).map fun p => mkDeferredOf g p.1 p.2).reverse := by
    rw [registerMany_eq g hg cbs {} rfl]
    simp
  have hsimple : ∀ d ∈ (registerMany g cbs {}).deferQueue,
      d.isCancelled = false ∧ d.timeout = none
        ∧ ∃ v, d.callback.behavior = .ret v ∧ v.isError = false := by
    intro d hd
    rw [hq, List.mem_reverse] at hd
    rcases List.mem_map.mp hd with ⟨p, hp, rfl⟩
    have hpcb : p.2 ∈ cbs := snd_mem_of_mem_enumFrom hp
    rcases hcb p.2 hpcb with ⟨v, hv, hvE⟩
    exact ⟨rfl, hto, v, hv, hvE⟩
  have hblocks : ∀ p ∈ (registerMany g cbs {}).deferQueue.enum,
      (handleDeferred p.2 p.1 (registerMany g cbs {}).deferQueue).events
        = [Event.callbackRun p.1 p.2.functionName] := by
    intro p hp
    have hpq : p.2 ∈ (registerMany g cbs {}).deferQueue := by
      rw [List.enum_eq_enumFrom] at hp
      exact snd_mem_of_mem_enumFrom hp
    rcases hsimple p.2 hpq with ⟨hc, ht, v, hv, _⟩
    rw [handleDeferred_simple p.2 p.1 _ v hc ht hv]
  have hnames : (registerMany g cbs {}).deferQueue.map Deferred.functionName
      = (cbs.map jsFunctionName).reverse := by
    rw [hq, List.map_reverse]
    have : ((List.enumFrom 0 cbs).map fun p => mkDeferredOf g p.1 p.2).map
        Deferred.functionName = (List.enumFrom 0 cbs).map fun p => jsFunctionName p.2 := by
      rw [List.map_map]
      rfl
    rw [this, enumFrom_snd_map]
  have hresOk : ∀ v ∈ (executeDeferredFunctions (registerMany g cbs {}) dbg thr).results,
      v.isError = false := by
    intro v hv
    rcases drain_results_mem _ dbg thr v hv with ⟨p, hp, rfl⟩
    have hpq : p.2 ∈ (registerMany g cbs {}).deferQueue := by
      rw [List.enum_eq_enumFrom] at hp
      exact snd_mem_of_mem_enumFrom hp
    rcases hsimple p.2 hpq with ⟨hc, ht, v, hv', hvE⟩
    rw [handleDeferred_simple p.2 p.1 _ v hc ht hv']
    exact hvE
  have hfail : failedResults (executeDeferredFunctions (registerMany g cbs {}) dbg thr).results
      = [] := by
    apply List.filter_eq_nil_iff.mpr
    intro p hp
    rcases List.mem_map.mp hp with ⟨q, hq', rfl⟩
    have hq2 : q.2 ∈ (executeDeferredFunctions (registerMany g cbs {}) dbg thr).results := by
      rw [List.enum_eq_enumFrom] at hq'
      exact snd_mem_of_mem_enumFrom hq'
    rw [hresOk q.2 hq2]
    exact Bool.false_ne_true
  have hmain : (executeDeferredFunctions (registerMany g cbs {}) dbg thr).events
      = ((cbs.map jsFunctionName).reverse.enum).map
          fun p => Event.callbackRun p.1 p.2 := by
    rw [drain_events_eq]
    have herrEv : (handleErrors
        ((((registerMany g cbs {}).deferQueue.enum.map fun p =>
            (handleDeferred p.2 p.1 (registerMany g cbs {}).deferQueue).value).enum).map
          fun p => (p.2, p.1))
        (registerMany g cbs {}).deferQueue dbg).2 = [] := by
      apply handleErrors_events_nil
      intro p hp
      rcases List.mem_map.mp hp with ⟨q, hq', rfl⟩
      have hq2 : q.2 ∈ ((registerMany g cbs {}).deferQueue.enum.map fun p =>
          (handleDeferred p.2 p.1 (registerMany g cbs {}).deferQueue).value) := by
        rw [List.enum_eq_enumFrom] at hq'
        exact snd_mem_of_mem_enumFrom hq'
      rw [← drain_results_eq _ dbg thr] at hq2
      exact hresOk q.2 hq2
    rw [herrEv, List.append_nil]
    rw [flatten_map_singleton _ _ _ hblocks]
    rw [List.enum_eq_enumFrom, enumFrom_map_compose Deferred.functionName Event.callbackRun]
    rw [hnames, List.enum_eq_enumFrom]
  refine ⟨hmain, ?_, ?_⟩
  · rw [hmain]
    exact (flatten_map_singleton ((cbs.map jsFunctionName).reverse.enum)
      (fun p => [Event.callbackRun p.1 p.2]) (fun p => Event.callbackRun p.1 p.2)
      fun p _ => rfl).symm
  · rw [drain_outcome_eq]
    rw [hfail]
    simp

/-- C2 witness: three named callbacks registered as `a`, `b`, `c` drain as
`c`, `b`, `a`. -/
theorem C2_drain_reverse_registration_order_witness :
    (validateDeferOptions {} = .ok ()) ∧
      (executeDeferredFunctions (registerMany {}
          [{ name := "a", behavior := .ret (.vStr "A"), duration := 0 },
            { name := "b", behavior := .ret (.vStr "B"), duration := 0 },
            { name := "c", behavior := .ret (.vStr "C"), duration := 0 }] {}) false false).events
        = (([{ name := "a", behavior := .ret (.vStr "A"), duration := 0 },
             { name := "b", behavior := .ret (.vStr "B"), duration := 0 },
             { name := "c", behavior := .ret (.vStr "C"), duration := 0 }].map
              (jsFunctionName)).reverse.enum).map
            (fun p => Event.callbackRun p.1 p.2) :=
  ⟨rfl,
    (C2_drain_reverse_registration_order {}
      [{ name := "a", behavior := .ret (.vStr "A"), duration := 0 },
        { name := "b", behavior := .ret (.vStr "B"), duration := 0 },
        { name := "c", behavior := .ret (.vStr "C"), duration := 0 }] false false rfl rfl
      (by
        intro cb hcb
        fin_cases hcb
        · exact ⟨.vStr "A", rfl, rfl⟩
        · exact ⟨.vStr "B", rfl, rfl⟩
        · exact ⟨.vStr "C", rfl, rfl⟩)).1⟩

/-- C8 counterexample: the context object the reporter receives carries
the original error under the key `err`, not `error` as the claim states —
for a concrete failing record the reporter's context association has no
`"error"` entry and an `"err"` entry holding the error. -/
theorem C8_reporter_contract_counterexample :
    (handleDeferred
        { rid := 0
          callback := { name := "boom", behavior := .thrw (.vErr (.err "Error" "kaput" none))
                        duration := 0 }
          timeout := none, functionName := "boom", isCancelled := false
          errorReporter := some { id := 7, throwsWith := none }, debug := false } 0
        [{ rid := 0
           callback := { name := "boom", behavior := .thrw (.vErr (.err "Error" "kaput" none))
                         duration := 0 }
           timeout := none, functionName := "boom", isCancelled := false
           errorReporter := some { id := 7, throwsWith := none }, debug := false }]).events
        = [Event.callbackRun 0 "boom",
            Event.reporterCall 7 (.vErr (.err "Error" "kaput" none))
              [("err", .vErr (.err "Error" "kaput" none)),
                ("index", .vNum 0),
                ("message",
                  .vStr "error in deferred function 0 (boom): failed to execute: kaput")]]
      ∧ List.lookup "error"
          [(("err" : String), JsValue.vErr (.err "Error" "kaput" none)),
            ("index", .vNum 0),
            ("message",
              .vStr "error in deferred function 0 (boom): failed to execute: kaput")]
        = none
      ∧ List.lookup "err"
          [(("err" : String), JsValue.vErr (.err "Error" "kaput" none)),
            ("index", .vNum 0),
            ("message",
              .vStr "error in deferred function 0 (boom): failed to execute: kaput")]
        = some (.vErr (.err "Error" "kaput" none)) :=
  ⟨rfl, rfl, rfl⟩

/-- C8 (amended): every failing or timed-out record with a configured
reporter triggers exactly one reporter invocation, receiving the original
error and the context record `{ err, index, message }` (the error field is
named `err`); and a reporter that throws is caught inside the drain — the
settlement values and the drain's completion are identical whatever any
reporter throws. -/
theorem C8_reporter_contract :
    (∀ (d : Deferred) (i : Nat) (q : List Deferred) (r : Reporter) (e : JsValue),
      d.isCancelled = false → d.errorReporter = some r → d.timeout = none →
      d.callback.behavior = .thrw e →
      (handleDeferred d i q).events.filter Event.isReporterCall
        = [Event.reporterCall r.id e
            [("err", e), ("index", .vNum i),
              ("message", .vStr (createErrorMessage q i "error"
                (classifyAction e ++ ": " ++ errText e)))]]) ∧
    (∀ (d : Deferred) (i : Nat) (q : List Deferred) (r : Reporter) (t : Int),
      d.isCancelled = false → d.errorReporter = some r → d.timeout = some t →
      0 < t → (t : Int) < (d.callback.duration : Int) →
      (handleDeferred d i q).events.filter Event.isReporterCall
        = [Event.reporterCall r.id (.vErr (.err "Error" "timeout exceeded" none))
            [("err", .vErr (.err "Error" "timeout exceeded" none)), ("index", .vNum i),
              ("message", .vStr (createErrorMessage q i "error"
                ("timed out" ++ ": " ++ "timeout exceeded")))]]) ∧
    (∀ (ctx : DeferCtx) (dbg thr : Bool) (f : Nat → Option JsValue),
      (executeDeferredFunctions (ctx.withReporterThrows f) dbg thr).results
          = (executeDeferredFunctions ctx dbg thr).results
        ∧ (executeDeferredFunctions (ctx.withReporterThrows f) dbg thr).outcome
          = (executeDeferredFunctions ctx dbg thr).outcome) := by
  refine ⟨?_, ?_, fun ctx dbg thr f => drain_reporter_throw_invariant ctx dbg thr f⟩
  · intro d i q r e hc hrep ht hb
    have hhd : handleDeferred d i q
        = { value := e
            events := [Event.callbackRun i d.functionName] ++
              reportError e i (classifyAction e) q d.errorReporter d.debug } := by
      simp [handleDeferred, hc, ht, hb]
    rw [hhd, hrep]
    simp only [List.cons_append, List.nil_append, List.filter_cons,
      Event.isReporterCall, Bool.false_eq_true, if_false]
    exact reportError_reporter_filter e i (classifyAction e) q r d.debug
  · intro d i q r t hc hrep hsome hpos hlt
    have h1 : decide (0 < t) = true := decide_eq_true hpos
    have h2 : decide (t < (d.callback.duration : Int)) = true := decide_eq_true hlt
    have hhd : handleDeferred d i q
        = { value := .vErr (.err "Error" "timeout exceeded" none)
            events := [Event.callbackRun i d.functionName] ++
              reportError (.vErr (.err "Error" "timeout exceeded" none)) i "timed out" q
                d.errorReporter d.debug } := by
      simp [handleDeferred, hc, hsome, h1, h2, classifyAction, JsError.message]
    rw [hhd, hrep]
    simp only [List.cons_append, List.nil_append, List.filter_cons,
      Event.isReporterCall, Bool.false_eq_true, if_false]
    exact reportError_reporter_filter (.vErr (.err "Error" "timeout exceeded" none)) i
      "timed out" q r d.debug

/-- C8 witness: a concrete failing record with a throwing reporter is
reported exactly once with the `err`-keyed context, and replacing the
reporter's throw behavior changes neither settlements nor the drain
outcome of a concrete context. -/
theorem C8_reporter_contract_witness :
    (handleDeferred
        { rid := 0
          callback := { name := "boom", behavior := .thrw (.vErr (.err "Error" "kaput" none))
                        duration := 0 }
          timeout := none, functionName := "boom", isCancelled := false
          errorReporter := some { id := 7, throwsWith := some (.vStr "reporter blew up") }
          debug := false } 0 []).events.filter Event.isReporterCall
        = [Event.reporterCall 7 (.vErr (.err "Error" "kaput" none))
            [("err", .vErr (.err "Error" "kaput" none)), ("index", .vNum 0),
              ("message", .vStr (createErrorMessage [] 0 "error"
                (classifyAction (.vErr (.err "Error" "kaput" none)) ++ ": "
                  ++ errText (.vErr (.err "Error" "kaput" none)))))]]
      ∧ ((executeDeferredFunctions
            (DeferCtx.withReporterThrows
              { deferQueue :=
                  [{ rid := 0
                     callback := { name := "boom"
                                   behavior := .thrw (.vErr (.err "Error" "kaput" none))
                                   duration := 0 }
                     timeout := none, functionName := "boom", isCancelled := false
                     errorReporter := some { id := 7, throwsWith := none }, debug := false }]
                nextRid := 1, isExecuting := false }
              fun _ => some (.vStr "reporter blew up")) false true).results
          = (executeDeferredFunctions
              { deferQueue :=
                  [{ rid := 0
                     callback := { name := "boom"
                                   behavior := .thrw (.vErr (.err "Error" "kaput" none))
                                   duration := 0 }
                     timeout := none, functionName := "boom", isCancelled := false
                     errorReporter := some { id := 7, throwsWith := none }, debug := false }]
                nextRid := 1, isExecuting := false } false true).results
        ∧ (executeDeferredFunctions
            (DeferCtx.withReporterThrows
              { deferQueue :=
                  [{ rid := 0
                     callback := { name := "boom"
                                   behavior := .thrw (.vErr (.err "Error" "kaput" none))
                                   duration := 0 }
                     timeout := none, functionName := "boom", isCancelled := false
                     errorReporter := some { id := 7, throwsWith := none }, debug := false }]
                nextRid := 1, isExecuting := false }
              fun _ => some (.vStr "reporter blew up")) false true).outcome
          = (executeDeferredFunctions
              { deferQueue :=
                  [{ rid := 0
                     callback := { name := "boom"
                                   behavior := .thrw (.vErr (.err "Error" "kaput" none))
                                   duration := 0 }
                     timeout := none, functionName := "boom", isCancelled := false
                     errorReporter := some { id := 7, throwsWith := none }, debug := false }]
                nextRid := 1, isExecuting := false } false true).outcome) :=
  ⟨C8_reporter_contract.1
      { rid := 0
        callback := { name := "boom", behavior := .thrw (.vErr (.err "Error" "kaput" none))
                      duration := 0 }
        timeout := none, functionName := "boom", isCancelled := false
        errorReporter := some { id := 7, throwsWith := some (.vStr "reporter blew up") }
        debug := false } 0 [] { id := 7, throwsWith := some (.vStr "reporter blew up") }
      (.vErr (.err "Error" "kaput" none)) rfl rfl rfl rfl,
    C8_reporter_contract.2.2
      { deferQueue :=
          [{ rid := 0
             callback := { name := "boom", behavior := .thrw (.vErr (.err "Error" "kaput" none))
                           duration := 0 }
             timeout := none, functionName := "boom", isCancelled := false
             errorReporter := some { id := 7, throwsWith := none }, debug := false }]
        nextRid := 1, isExecuting := false } false true
      (fun _ => some (.vStr "reporter blew up"))⟩

/-- C9: a callback that completes successfully but returns an Error
instance settles with that Error; `handleErrors` then classifies the
record as failed, wraps the returned Error with it as `cause`, and with
`throwOnError` the aggregate (whose message carries the failure count) is
thrown — despite the callback neither throwing nor rejecting (no
`reportError` is emitted for it). -/
theorem C9_returned_error_counts_as_failure :
    ∀ (d : Deferred) (i : Nat) (q : List Deferred) (je : JsError),
      d.isCancelled = false → d.timeout = none →
      d.callback.behavior = .ret (.vErr je) →
      handleDeferred d i q
          = { value := .vErr je, events := [Event.callbackRun i d.functionName] }
        ∧ ∀ (ctx : DeferCtx) (dbg : Bool),
            ctx.deferQueue.get? i = some d →
            (JsValue.vErr je, i)
                ∈ failedResults (executeDeferredFunctions ctx dbg true).results
              ∧ ∃ errs,
                  (executeDeferredFunctions ctx dbg true).outcome
                      = .error (.aggregate errs
                          (toString errs.length ++ " deferred functions failed"))
                    ∧ wrapOne ctx.deferQueue (.vErr je, i) ∈ errs
                    ∧ (wrapOne ctx.deferQueue (.vErr je, i)).cause = some je := by
  intro d i q je hc hto hb
  have hhd : ∀ q' : List Deferred, handleDeferred d i q'
      = { value := .vErr je, events := [Event.callbackRun i d.functionName] } := by
    intro q'
    simp [handleDeferred, hc, hto, hb]
  refine ⟨hhd q, ?_⟩
  intro ctx dbg hget
  have hres : (executeDeferredFunctions ctx dbg true).results.get? i
      = some (.vErr je) := by
    rw [drain_results_get? ctx dbg true i d hget, hhd ctx.deferQueue]
  have hmem : ((JsValue.vErr je, i))
      ∈ failedResults (executeDeferredFunctions ctx dbg true).results := by
    apply List.mem_filter.mpr
    constructor
    · apply List.mem_map.mpr
      refine ⟨(i, .vErr je), ?_, rfl⟩
      exact List.mem_enum_iff_get?.mpr hres
    · rfl
  refine ⟨hmem, ?_⟩
  have hpos : 0 < ((failedResults (executeDeferredFunctions ctx dbg true).results).map
      (wrapOne ctx.deferQueue)).length := by
    rw [List.length_map]
    exact List.length_pos.mpr (List.ne_nil_of_mem hmem)
  refine ⟨(failedResults (executeDeferredFunctions ctx dbg true).results).map
      (wrapOne ctx.deferQueue), ?_, ?_, rfl⟩
  · rw [drain_outcome_eq ctx dbg true]
    have hcond : (true && decide (0 <
        ((failedResults (executeDeferredFunctions ctx dbg true).results).map
          (wrapOne ctx.deferQueue)).length)) = true := by
      simp only [Bool.true_and, decide_eq_true_eq]
      exact hpos
    rw [hcond, if_pos rfl]
  · exact List.mem_map.mpr ⟨(.vErr je, i), hmem, rfl⟩

/-- C9 witness: a record returning `Error("looks bad")` as its value is
counted as a failure of a one-record drain with `throwOnError`. -/
theorem C9_returned_error_counts_as_failure_witness :
    handleDeferred
        { rid := 0
          callback := { name := "give", behavior := .ret (.vErr (.err "Error" "looks bad" none))
                        duration := 0 }
          timeout := none, functionName := "give", isCancelled := false
          errorReporter := none, debug := false } 0
        [{ rid := 0
           callback := { name := "give", behavior := .ret (.vErr (.err "Error" "looks bad" none))
                         duration := 0 }
           timeout := none, functionName := "give", isCancelled := false
           errorReporter := none, debug := false }]
        = { value := .vErr (.err "Error" "looks bad" none)
            events := [Event.callbackRun 0 "give"] }
      ∧ ∀ (ctx : DeferCtx) (dbg : Bool),
          ctx.deferQueue.get? 0 = some
            { rid := 0
              callback := { name := "give", behavior := .ret (.vErr (.err "Error" "looks bad" none))
                            duration := 0 }
              timeout := none, functionName := "give", isCancelled := false
              errorReporter := none, debug := false } →
          (JsValue.vErr (.err "Error" "looks bad" none), 0)
              ∈ failedResults (executeDeferredFunctions ctx dbg true).results
            ∧ ∃ errs,
                (executeDeferredFunctions ctx dbg true).outcome
                    = .error (.aggregate errs
                        (toString errs.length ++ " deferred functions failed"))
                  ∧ wrapOne ctx.deferQueue (.vErr (.err "Error" "looks bad" none), 0) ∈ errs
                  ∧ (wrapOne ctx.deferQueue (.vErr (.err "Error" "looks bad" none), 0)).cause
                      = some (.err "Error" "looks bad" none) :=
  C9_returned_error_counts_as_failure
    { rid := 0
      callback := { name := "give", behavior := .ret (.vErr (.err "Error" "looks bad" none))
                    duration := 0 }
      timeout := none, functionName := "give", isCancelled := false
      errorReporter := none, debug := false } 0
    [{ rid := 0
       callback := { name := "give", behavior := .ret (.vErr (.err "Error" "looks bad" none))
                     duration := 0 }
       timeout := none, functionName := "give", isCancelled := false
       errorReporter := none, debug := false }]
    (.err "Error" "looks bad" none) rfl rfl rfl

end WithDefer
